import Mathlib

/-!
Verification of the ride-hailing prototype backend (`src/main.py` together
with the record shapes of `src/schemas.py`).

Modelling conventions.  The MongoDB document store is embedded as
association lists keyed by opaque id strings: `find_one` by id returns the
first entry carrying the key, `update_one ... set` rewrites every entry
carrying the key, and `find_one` with a field filter returns the first
entry satisfying the filter (the store's natural iteration order).  Python
floats are modelled as exact rationals and Python `round(x, n)` as exact
round-half-to-even at `n` decimal digits.  Timestamps (`created_at`,
`updated_at`, `issued_at`) and the HTTP plumbing are omitted; an endpoint
that raises `HTTPException` is modelled as `Except.error` carrying the
`detail` string.  A raised exception aborts the handler before any write,
so an error result carries no store: the caller's store is untouched.
-/

namespace RideHailing

/-- Round-half-to-even to an integer, the tie rule of Python `round`. -/
def roundHalfEven (q : ℚ) : ℤ :=
  let f := ⌊q⌋
  let frac := q - (f : ℚ)
  if frac < 1/2 then f
  else if 1/2 < frac then f + 1
  else if f % 2 = 0 then f else f + 1

/-- Python `round(x, 2)` on exact rationals. -/
def round2 (q : ℚ) : ℚ := (roundHalfEven (q * 100) : ℚ) / 100

/-- Python `round(x, 6)` on exact rationals. -/
def round6 (q : ℚ) : ℚ := (roundHalfEven (q * 1000000) : ℚ) / 1000000

/-- `Coordinate` of `schemas.py` (lat/lng floats as exact rationals). -/
structure Coordinate where
  lat : ℚ
  lng : ℚ
deriving DecidableEq

/-- `Location` of `schemas.py`: optional name plus a coordinate. -/
structure Location where
  name : Option String
  coordinate : Coordinate
deriving DecidableEq

/-- `Driver` document of `schemas.py`. -/
structure Driver where
  name : String
  phone : String
  vehicle_type : String
  vehicle_number : String
  verified : Bool
  rating : ℚ
  total_rides : Nat
  earnings : ℚ
  current_location : Coordinate
  available : Bool
deriving DecidableEq

/-- `FareBreakdown` / `FareResp` shape of `schemas.py` and `main.py`. -/
structure FareResp where
  base_fare : ℚ
  distance_km : ℚ
  per_km_rate : ℚ
  time_min : ℚ
  per_min_rate : ℚ
  total : ℚ
deriving DecidableEq

/-- `Ride` document of `schemas.py` (timestamps omitted). -/
structure Ride where
  rider_name : String
  rider_phone : String
  pickup : Location
  drop : Location
  vehicle_type : String
  fixed_booth_id : Option String
  status : String
  driver_id : Option String
  driver_name : Option String
  driver_phone : Option String
  driver_vehicle_number : Option String
  fare : Option FareResp
  route_points : Option (List Coordinate)
  route_index : Int
deriving DecidableEq

/-- `Booth` document of `schemas.py`. -/
structure Booth where
  name : String
  location : Location
  queue_count : Int
deriving DecidableEq

/-- `QueueTicket` document of `schemas.py` (`issued_at` omitted). -/
structure QueueTicket where
  booth_id : String
  number : Int
  phone : Option String
deriving DecidableEq

/-- `RideRequest` body of `main.py`: `vehicle_type` is a plain string here. -/
structure RideRequest where
  rider_name : String
  rider_phone : String
  pickup : Location
  drop : Location
  vehicle_type : String
  fixed_booth_id : Option String
deriving DecidableEq

/-- The document store: the `ride`, `driver`, `booth` and `queueticket`
collections, each an association list from id strings to documents. -/
structure Store where
  rides : List (String × Ride)
  drivers : List (String × Driver)
  booths : List (String × Booth)
  tickets : List QueueTicket
deriving DecidableEq

/-- Mongo `find_one` by `_id`: first entry with the given key. -/
def findOne {α : Type} : List (String × α) → String → Option α
  | [], _ => none
  | p :: t, i => if p.1 = i then some p.2 else findOne t i

/-- Mongo `update_one` with a `set` document keyed by `_id` (an update that
matches no document is a no-op, as in Mongo). -/
def updateById {α : Type} (l : List (String × α)) (i : String) (f : α → α) :
    List (String × α) :=
  l.map fun p => if p.1 = i then (p.1, f p.2) else p

/-- Mongo `find_one` with filter on `vehicle_type` and `available = true`,
the driver selection of `match_driver`: first match in natural order. -/
def findDriver : List (String × Driver) → String → Option (String × Driver)
  | [], _ => none
  | p :: t, vt =>
    if p.2.vehicle_type = vt ∧ p.2.available = true then some p else findDriver t vt

/-- `PER_KM` dict of `main.py`. -/
def PER_KM (vt : String) : Option ℚ :=
  if vt = "auto" then some 12 else if vt = "taxi" then some 20 else none

/-- `PER_MIN` dict of `main.py`. -/
def PER_MIN (vt : String) : Option ℚ :=
  if vt = "auto" then some (3/2) else if vt = "taxi" then some 2 else none

/-- `BASE_FARE` dict of `main.py`. -/
def BASE_FARE (vt : String) : Option ℚ :=
  if vt = "auto" then some 20 else if vt = "taxi" then some 40 else none

/-- `calculate_fare` endpoint of `main.py`: rejects a vehicle type outside
the `PER_KM` keys, otherwise total is base + distance cost + time cost
rounded to two decimals.  No other validation is performed. -/
def calculate_fare (vt : String) (distance_km time_min : ℚ) : Except String FareResp :=
  match PER_KM vt, PER_MIN vt, BASE_FARE vt with
  | some perKm, some perMin, some base =>
      .ok { base_fare := base
            distance_km := distance_km
            per_km_rate := perKm
            time_min := time_min
            per_min_rate := perMin
            total := round2 (base + distance_km * perKm + time_min * perMin) }
  | _, _, _ => .error "Invalid vehicle type"

/-- The interpolation loop of `simulate_route`: `steps + 1` points, point
`i` at parameter `t = i / steps`, each coordinate rounded to six decimals. -/
def interpolate (p1 p2 : Coordinate) (steps : Nat) : List Coordinate :=
  (List.range (steps + 1)).map fun (i : Nat) =>
    let t : ℚ := (i : ℚ) / (steps : ℚ)
    { lat := round6 (p1.lat * (1 - t) + p2.lat * t)
      lng := round6 (p1.lng * (1 - t) + p2.lng * t) }

/-- Pydantic v2 validation of a field typed `schemas.Location`, applied to
the value `request_ride` actually supplies there: an instance of the
`Location` class that `main.py` defines for request parsing, which is a
class distinct from `schemas.Location`.  Pydantic v2 (the version this code
uses: it calls `model_dump()`) accepts for a model-typed field only an
instance of that very model class or a dict, so the field is rejected with
a `model_type` error whatever coordinates the value carries — before the
`schemas.Coordinate` bounds (`lat` within -90..90, `lng` within -180..180)
could even be checked against it. -/
def schemasLocationFieldOk (_loc : Location) : Bool := false

/-- The `Ride(...)` construction inside `request_ride`: pydantic v2
validation of the `schemas.Ride` fields.  `pickup` and `drop` must pass the
`schemas.Location` field validator (they never do for the `main.py`
`Location` instances the handler passes, see `schemasLocationFieldOk`), and
`vehicle_type` must satisfy the `Literal` constraint admitting only `auto`
and `taxi`; pydantic raises one `ValidationError` whenever any field
fails, so this construction raises for every request.  The `ok` branch
shows the record the construction would produce, all other fields taking
the schema defaults. -/
def rideOfRequest (req : RideRequest) : Except String Ride :=
  if schemasLocationFieldOk req.pickup = true ∧ schemasLocationFieldOk req.drop = true ∧
      (req.vehicle_type = "auto" ∨ req.vehicle_type = "taxi") then
    .ok { rider_name := req.rider_name
          rider_phone := req.rider_phone
          pickup := req.pickup
          drop := req.drop
          vehicle_type := req.vehicle_type
          fixed_booth_id := req.fixed_booth_id
          status := "requested"
          driver_id := none
          driver_name := none
          driver_phone := none
          driver_vehicle_number := none
          fare := none
          route_points := none
          route_index := 0 }
  else .error "Ride validation failed"

/-- `request_ride` endpoint of `main.py`: build the `Ride` document and
insert it with a fresh id `newId`; returns the new ride's id. -/
def request_ride (s : Store) (newId : String) (req : RideRequest) :
    Except String (Store × String) :=
  match rideOfRequest req with
  | .error e => .error e
  | .ok ride => .ok ({ s with rides := s.rides ++ [(newId, ride)] }, newId)

/-- `match_driver` endpoint of `main.py`: look up the ride, pick the first
available driver of the ride's vehicle type, mark the driver unavailable,
write the status and the driver snapshot onto the ride, and return the new
status. -/
def match_driver (s : Store) (ride_id : String) : Except String (Store × String) :=
  match findOne s.rides ride_id with
  | none => .error "Ride not found"
  | some r =>
    match findDriver s.drivers r.vehicle_type with
    | none => .error "No drivers available"
    | some (did, d) =>
      .ok ({ s with
              drivers := updateById s.drivers did fun dr => { dr with available := false }
              rides := updateById s.rides ride_id fun rd =>
                { rd with
                    status := "driver_en_route"
                    driver_id := some did
                    driver_name := some d.name
                    driver_phone := some d.phone
                    driver_vehicle_number := some d.vehicle_number } },
            "driver_en_route")

/-- `simulate_route` endpoint of `main.py`: regenerate the 31-point route
between pickup and drop and reset `route_index` to 0; returns the points. -/
def simulate_route (s : Store) (ride_id : String) :
    Except String (Store × List Coordinate) :=
  match findOne s.rides ride_id with
  | none => .error "Ride not found"
  | some r =>
    let points := interpolate r.pickup.coordinate r.drop.coordinate 30
    .ok ({ s with rides := updateById s.rides ride_id fun rd =>
              { rd with route_points := some points, route_index := 0 } },
          points)

/-- `progress_ride` endpoint of `main.py`: below the last index, step the
cursor and set the status (`ongoing` once the new index exceeds 1, else the
ride's current status); at the last index, mark the ride completed and
best-effort free the attached driver.  Returns the new status (the JSON
position/progress fields of the response are not modelled). -/
def progress_ride (s : Store) (ride_id : String) : Except String (Store × String) :=
  match findOne s.rides ride_id with
  | none => .error "Ride not found"
  | some r =>
    match r.route_points with
    | none => .error "No route to follow; call /simulate first"
    | some points =>
      if points = [] then .error "No route to follow; call /simulate first"
      else if r.route_index < (points.length : Int) - 1 then
        let idx := r.route_index + 1
        let st := if idx > 1 then "ongoing" else r.status
        .ok ({ s with rides := updateById s.rides ride_id fun rd =>
                  { rd with route_index := idx, status := st } },
              st)
      else
        let s1 : Store :=
          { s with rides := updateById s.rides ride_id fun rd =>
              { rd with status := "completed" } }
        match r.driver_id with
        | some did =>
          .ok ({ s1 with
                  drivers := updateById s1.drivers did fun d =>
                    { d with available := true } },
                "completed")
        | none => .ok (s1, "completed")

/-- `get_queue_number` endpoint of `main.py`: read the booth's counter,
increment it, write it back, and log an immutable `QueueTicket`. -/
def get_queue_number (s : Store) (booth_id : String) (phone : Option String) :
    Except String (Store × Int) :=
  match findOne s.booths booth_id with
  | none => .error "Booth not found"
  | some b =>
    let next := b.queue_count + 1
    .ok ({ s with
            booths := updateById s.booths booth_id fun bb => { bb with queue_count := next }
            tickets := s.tickets ++ [{ booth_id := booth_id, number := next, phone := phone }] },
          next)

/-- `n` sequential `get_queue_number` calls on one booth (phone omitted),
collecting the returned ticket numbers in call order. -/
def issueSeq (booth_id : String) : Nat → Store → Except String (Store × List Int)
  | 0, s => .ok (s, [])
  | n + 1, s =>
    match get_queue_number s booth_id none with
    | .error e => .error e
    | .ok (s1, t) =>
      match issueSeq booth_id n s1 with
      | .error e => .error e
      | .ok (s2, ts) => .ok (s2, t :: ts)

/-- `n` sequential `progress_ride` calls on one ride (the `n`-th call is
the outermost). -/
def progressN (ride_id : String) : Nat → Store → Except String Store
  | 0, s => .ok s
  | n + 1, s =>
    match progressN ride_id n s with
    | .error e => .error e
    | .ok s1 => (progress_ride s1 ride_id).map Prod.fst

theorem findOne_cons {α : Type} (p : String × α) (t : List (String × α)) (i : String) :
    findOne (p :: t) i = if p.1 = i then some p.2 else findOne t i := rfl

theorem updateById_cons {α : Type} (p : String × α) (t : List (String × α))
    (i : String) (f : α → α) :
    updateById (p :: t) i f =
      (if p.1 = i then (p.1, f p.2) else p) :: updateById t i f := rfl

theorem findOne_updateById_self {α : Type} (l : List (String × α)) (i : String) (f : α → α) :
    findOne (updateById l i f) i = (findOne l i).map f := by
  induction l with
  | nil => rfl
  | cons p t ih =>
    rw [updateById_cons]
    by_cases h : p.1 = i
    · rw [if_pos h, findOne_cons, findOne_cons]
      simp [h]
    · rw [if_neg h, findOne_cons, findOne_cons, if_neg h, if_neg h]
      exact ih

theorem findOne_updateById_ne {α : Type} (l : List (String × α)) (i j : String)
    (f : α → α) (hij : j ≠ i) :
    findOne (updateById l i f) j = findOne l j := by
  induction l with
  | nil => rfl
  | cons p t ih =>
    rw [updateById_cons]
    by_cases h : p.1 = i
    · have hpj : ¬ p.1 = j := fun he => hij (he ▸ h)
      rw [if_pos h, findOne_cons, findOne_cons]
      simp only [if_neg hpj]
      exact ih
    · rw [if_neg h, findOne_cons, findOne_cons]
      by_cases hpj : p.1 = j
      · rw [if_pos hpj, if_pos hpj]
      · rw [if_neg hpj, if_neg hpj]
        exact ih

theorem findOne_eq_of_mem_nodup {α : Type} {l : List (String × α)} {i : String} {a : α}
    (hnd : (l.map Prod.fst).Nodup) (hmem : (i, a) ∈ l) : findOne l i = some a := by
  induction l with
  | nil => cases hmem
  | cons p t ih =>
    rw [List.map_cons, List.nodup_cons] at hnd
    rcases List.mem_cons.mp hmem with h | h
    · rw [← h]
      simp [findOne_cons]
    · have hp : p.1 ≠ i := fun he =>
        hnd.1 (List.mem_map.mpr ⟨(i, a), h, he.symm⟩)
      rw [findOne_cons, if_neg hp]
      exact ih hnd.2 h

theorem findDriver_sound {l : List (String × Driver)} {vt : String} {p : String × Driver}
    (h : findDriver l vt = some p) :
    p ∈ l ∧ p.2.vehicle_type = vt ∧ p.2.available = true := by
  induction l with
  | nil => cases h
  | cons q t ih =>
    by_cases hq : q.2.vehicle_type = vt ∧ q.2.available = true
    · rw [findDriver, if_pos hq] at h
      cases h
      exact ⟨List.mem_cons_self _ _, hq⟩
    · rw [findDriver, if_neg hq] at h
      obtain ⟨h1, h2⟩ := ih h
      exact ⟨List.mem_cons_of_mem _ h1, h2⟩

theorem findDriver_isSome {l : List (String × Driver)} {vt : String}
    (h : ∃ p ∈ l, p.2.vehicle_type = vt ∧ p.2.available = true) :
    ∃ p, findDriver l vt = some p := by
  induction l with
  | nil => obtain ⟨p, hp, _⟩ := h; cases hp
  | cons q t ih =>
    by_cases hq : q.2.vehicle_type = vt ∧ q.2.available = true
    · exact ⟨q, by rw [findDriver, if_pos hq]⟩
    · obtain ⟨p, hp, hpred⟩ := h
      rcases List.mem_cons.mp hp with rfl | hp'
      · exact absurd hpred hq
      · obtain ⟨p', hp'⟩ := ih ⟨p, hp', hpred⟩
        exact ⟨p', by rw [findDriver, if_neg hq]; exact hp'⟩

theorem findDriver_eq_none {l : List (String × Driver)} {vt : String}
    (h : ∀ p ∈ l, ¬(p.2.vehicle_type = vt ∧ p.2.available = true)) :
    findDriver l vt = none := by
  induction l with
  | nil => rfl
  | cons q t ih =>
    rw [findDriver, if_neg (h q (List.mem_cons_self _ _))]
    exact ih fun p hp => h p (List.mem_cons_of_mem _ hp)

theorem interpolate_length (p1 p2 : Coordinate) (steps : Nat) :
    (interpolate p1 p2 steps).length = steps + 1 := by
  unfold interpolate
  rw [List.length_map, List.length_range]

theorem progress_ride_step {s : Store} {rid : String} {r : Ride} {pts : List Coordinate}
    (hr : findOne s.rides rid = some r) (hpts : r.route_points = some pts)
    (hne : pts ≠ []) (hlt : r.route_index < (pts.length : Int) - 1) :
    ∃ s1, progress_ride s rid =
        .ok (s1, if r.route_index + 1 > 1 then "ongoing" else r.status) ∧
      s1.rides = (updateById s.rides rid fun rd =>
        { rd with
            route_index := r.route_index + 1
            status := if r.route_index + 1 > 1 then "ongoing" else r.status }) ∧
      s1.drivers = s.drivers ∧ s1.booths = s.booths ∧ s1.tickets = s.tickets := by
  refine ⟨{ s with rides := updateById s.rides rid fun rd =>
      { rd with
          route_index := r.route_index + 1
          status := if r.route_index + 1 > 1 then "ongoing" else r.status } },
    ?_, rfl, rfl, rfl, rfl⟩
  simp [progress_ride, hr, hpts, hne, hlt]

theorem progress_ride_complete {s : Store} {rid : String} {r : Ride} {pts : List Coordinate}
    (hr : findOne s.rides rid = some r) (hpts : r.route_points = some pts)
    (hne : pts ≠ []) (hge : ¬ r.route_index < (pts.length : Int) - 1) :
    ∃ s1, progress_ride s rid = .ok (s1, "completed") ∧
      s1.rides = (updateById s.rides rid fun rd => { rd with status := "completed" }) ∧
      (∀ did, r.driver_id = some did →
        s1.drivers = updateById s.drivers did fun d => { d with available := true }) ∧
      (r.driver_id = none → s1.drivers = s.drivers) ∧
      s1.booths = s.booths ∧ s1.tickets = s.tickets := by
  rcases hdid : r.driver_id with _ | did
  · refine ⟨{ s with
        rides := updateById s.rides rid fun rd => { rd with status := "completed" } },
      ?_, rfl, ?_, fun _ => rfl, rfl, rfl⟩
    · simp [progress_ride, hr, hpts, hne, hge, hdid]
    · intro did h
      cases h
  · refine ⟨{ s with
        rides := updateById s.rides rid fun rd => { rd with status := "completed" }
        drivers := updateById s.drivers did fun d => { d with available := true } },
      ?_, rfl, ?_, ?_, rfl, rfl⟩
    · simp [progress_ride, hr, hpts, hne, hge, hdid]
    · intro did2 h
      injection h with h
      rw [h]
    · intro h
      cases h

theorem match_driver_success {s : Store} {rid : String} {r : Ride}
    (hr : findOne s.rides rid = some r)
    (hex : ∃ p ∈ s.drivers, p.2.vehicle_type = r.vehicle_type ∧ p.2.available = true) :
    ∃ did d s', match_driver s rid = .ok (s', "driver_en_route") ∧
      (did, d) ∈ s.drivers ∧ d.vehicle_type = r.vehicle_type ∧ d.available = true ∧
      findDriver s.drivers r.vehicle_type = some (did, d) ∧
      s'.rides = (updateById s.rides rid fun rd =>
        { rd with
            status := "driver_en_route", driver_id := some did
            driver_name := some d.name, driver_phone := some d.phone
            driver_vehicle_number := some d.vehicle_number }) ∧
      s'.drivers = (updateById s.drivers did fun dr => { dr with available := false }) ∧
      s'.booths = s.booths ∧ s'.tickets = s.tickets := by
  obtain ⟨⟨did, d⟩, hfd⟩ := findDriver_isSome hex
  obtain ⟨hmem, hvt, hav⟩ := findDriver_sound hfd
  refine ⟨did, d, { s with
      drivers := updateById s.drivers did fun dr => { dr with available := false }
      rides := updateById s.rides rid fun rd =>
        { rd with
            status := "driver_en_route", driver_id := some did
            driver_name := some d.name, driver_phone := some d.phone
            driver_vehicle_number := some d.vehicle_number } },
    ?_, hmem, hvt, hav, hfd, rfl, rfl, rfl, rfl⟩
  simp [match_driver, hr, hfd]

theorem simulate_route_success {s : Store} {rid : String} {r : Ride}
    (hr : findOne s.rides rid = some r) :
    ∃ s1, simulate_route s rid =
        .ok (s1, interpolate r.pickup.coordinate r.drop.coordinate 30) ∧
      s1.rides = (updateById s.rides rid fun rd =>
        { rd with
            route_points := some (interpolate r.pickup.coordinate r.drop.coordinate 30)
            route_index := 0 }) ∧
      s1.drivers = s.drivers ∧ s1.booths = s.booths ∧ s1.tickets = s.tickets := by
  refine ⟨{ s with rides := updateById s.rides rid fun rd =>
      { rd with
          route_points := some (interpolate r.pickup.coordinate r.drop.coordinate 30)
          route_index := 0 } },
    ?_, rfl, rfl, rfl, rfl⟩
  simp [simulate_route, hr]

theorem get_queue_number_success {s : Store} {bid : String} {b : Booth} (ph : Option String)
    (hb : findOne s.booths bid = some b) :
    ∃ s1, get_queue_number s bid ph = .ok (s1, b.queue_count + 1) ∧
      s1.booths = (updateById s.booths bid fun bb => { bb with queue_count := b.queue_count + 1 }) ∧
      s1.tickets = s.tickets ++ [{ booth_id := bid, number := b.queue_count + 1, phone := ph }] ∧
      s1.rides = s.rides ∧ s1.drivers = s.drivers := by
  refine ⟨{ s with
      booths := updateById s.booths bid fun bb => { bb with queue_count := b.queue_count + 1 }
      tickets := s.tickets ++ [{ booth_id := bid, number := b.queue_count + 1, phone := ph }] },
    ?_, rfl, rfl, rfl, rfl⟩
  simp [get_queue_number, hb]

/-- The route-cursor invariant of a single ride document: whenever
`route_points` is set, `route_index` lies within `[0, length - 1]`. -/
def RideInv (r : Ride) : Prop :=
  ∀ pts, r.route_points = some pts →
    0 ≤ r.route_index ∧ r.route_index ≤ (pts.length : Int) - 1

/-- The route-cursor invariant for every ride visible in the store. -/
def StoreInv (s : Store) : Prop :=
  ∀ i r, findOne s.rides i = some r → RideInv r

/-! Concrete documents and stores used as test vectors by the witnesses. -/

def coordA : Coordinate := { lat := 0, lng := 0 }

def coordB : Coordinate := { lat := 30, lng := 30 }

def locA : Location := { name := none, coordinate := coordA }

def locB : Location := { name := none, coordinate := coordB }

def driverRavi : Driver :=
  { name := "Ravi", phone := "9000000001", vehicle_type := "auto"
    vehicle_number := "KA-01-AR-1234", verified := true, rating := 24/5
    total_rides := 0, earnings := 0, current_location := coordA, available := true }

def driverImran : Driver :=
  { driverRavi with name := "Imran", phone := "9000000003", available := false }

def driverSunita : Driver :=
  { driverRavi with name := "Sunita", phone := "9000000002", vehicle_type := "taxi" }

def rideBase : Ride :=
  { rider_name := "Asha", rider_phone := "9111111111", pickup := locA, drop := locB
    vehicle_type := "auto", fixed_booth_id := none, status := "requested"
    driver_id := none, driver_name := none, driver_phone := none
    driver_vehicle_number := none, fare := none, route_points := none, route_index := 0 }

def emptyStore : Store := { rides := [], drivers := [], booths := [], tickets := [] }

def reqBogus : RideRequest :=
  { rider_name := "Asha", rider_phone := "9111111111", pickup := locA, drop := locB
    vehicle_type := "hoverboard", fixed_booth_id := none }

def reqAuto : RideRequest := { reqBogus with vehicle_type := "auto" }

def storeMatch : Store :=
  { rides := [("r1", rideBase)], drivers := [("d1", driverRavi)], booths := [], tickets := [] }

def storeNoDrivers : Store :=
  { rides := [("r1", rideBase)]
    drivers := [("d2", driverImran), ("d3", driverSunita)]
    booths := [], tickets := [] }

def storeDone : Store :=
  { rides := [("r1", { rideBase with status := "completed" })]
    drivers := [("d1", driverRavi)], booths := [], tickets := [] }

def storeAtEnd : Store :=
  { rides := [("r1", { rideBase with
        status := "completed", driver_id := some "d1"
        route_points := some [coordA, coordB], route_index := 1 })]
    drivers := [("d1", { driverRavi with available := false })]
    booths := [], tickets := [] }

def boothMG : Booth := { name := "MG Road Metro", location := locA, queue_count := 0 }

def storeBooth : Store :=
  { rides := [], drivers := [], booths := [("b1", boothMG)], tickets := [] }

def storeTrip : Store :=
  { rides := [("r2", { rideBase with
        status := "driver_en_route", driver_id := some "d1"
        driver_name := some "Ravi", driver_phone := some "9000000001"
        driver_vehicle_number := some "KA-01-AR-1234" })]
    drivers := [("d1", { driverRavi with available := false })]
    booths := [], tickets := [] }

/-! The claims. -/

/-- C3: on a ride whose vehicle type has no available driver in the pool,
`match_driver` fails with the no-drivers-available error.  The driver pool
and the ride record are untouched: the exception is raised before any
write, which the embedding renders by the error result carrying no store. -/
theorem C3_no_drivers_available (s : Store) (rid : String) (r : Ride)
    (hr : findOne s.rides rid = some r)
    (hnone : ∀ p ∈ s.drivers, ¬(p.2.vehicle_type = r.vehicle_type ∧ p.2.available = true)) :
    match_driver s rid = .error "No drivers available" := by
  simp [match_driver, hr, findDriver_eq_none hnone]

theorem C3_witness : match_driver storeNoDrivers "r1" = .error "No drivers available" :=
  C3_no_drivers_available storeNoDrivers "r1" rideBase rfl (by decide)

/-- C6: for vehicle types `auto` and `taxi`, `calculate_fare` returns the
breakdown whose total is base + distance·perKm + time·perMin rounded to two
decimals with that type's constants (auto: base 20, 12/km, 1.5/min; taxi:
base 40, 20/km, 2/min); any other vehicle type string fails with the
invalid-vehicle-type error; there is no other input validation, so the
formula applies to negative distances and times as well. -/
theorem C6_calculate_fare_spec :
    (∀ d t : ℚ, calculate_fare "auto" d t =
      .ok { base_fare := 20, distance_km := d, per_km_rate := 12, time_min := t
            per_min_rate := 3/2, total := round2 (20 + d * 12 + t * (3/2)) }) ∧
    (∀ d t : ℚ, calculate_fare "taxi" d t =
      .ok { base_fare := 40, distance_km := d, per_km_rate := 20, time_min := t
            per_min_rate := 2, total := round2 (40 + d * 20 + t * 2) }) ∧
    (∀ (vt : String) (d t : ℚ), vt ≠ "auto" → vt ≠ "taxi" →
      calculate_fare vt d t = .error "Invalid vehicle type") := by
  refine ⟨fun d t => rfl, fun d t => rfl, fun vt d t h1 h2 => ?_⟩
  simp [calculate_fare, PER_KM, PER_MIN, BASE_FARE, h1, h2]

theorem C6_witness :
    calculate_fare "auto" (-3) 2 =
      .ok { base_fare := 20, distance_km := -3, per_km_rate := 12, time_min := 2
            per_min_rate := 3/2, total := round2 (20 + (-3) * 12 + 2 * (3/2)) } ∧
    calculate_fare "bike" 5 5 = .error "Invalid vehicle type" :=
  ⟨C6_calculate_fare_spec.1 (-3) 2,
   C6_calculate_fare_spec.2.2 "bike" 5 5 (by decide) (by decide)⟩

/-- C7: interpolation with 30 steps yields exactly 31 points; point `i` is
the linear blend at `t = i / 30` with each coordinate rounded to six
decimals; the first point is the start and the last point is the end, both
up to six-decimal rounding.  `interpolate` is a pure function of its
arguments, so the result is deterministic. -/
theorem C7_interpolate_spec (p1 p2 : Coordinate) :
    (interpolate p1 p2 30).length = 31 ∧
    (∀ i : Nat, i < 31 → (interpolate p1 p2 30)[i]? =
      some { lat := round6 (p1.lat * (1 - (i : ℚ) / 30) + p2.lat * ((i : ℚ) / 30))
             lng := round6 (p1.lng * (1 - (i : ℚ) / 30) + p2.lng * ((i : ℚ) / 30)) }) ∧
    (interpolate p1 p2 30)[0]? = some { lat := round6 p1.lat, lng := round6 p1.lng } ∧
    (interpolate p1 p2 30)[30]? = some { lat := round6 p2.lat, lng := round6 p2.lng } := by
  have hgen : ∀ i : Nat, i < 31 → (interpolate p1 p2 30)[i]? =
      some { lat := round6 (p1.lat * (1 - (i : ℚ) / 30) + p2.lat * ((i : ℚ) / 30))
             lng := round6 (p1.lng * (1 - (i : ℚ) / 30) + p2.lng * ((i : ℚ) / 30)) } := by
    intro i hi
    unfold interpolate
    rw [List.getElem?_map, List.getElem?_range hi]
    norm_num
  refine ⟨interpolate_length p1 p2 30, hgen, ?_, ?_⟩
  · have h0 := hgen 0 (by norm_num)
    rw [h0]
    norm_num
  · have h30 := hgen 30 (by norm_num)
    rw [h30]
    norm_num

theorem C7_witness :
    (interpolate coordA coordB 30).length = 31 ∧
    (interpolate coordA coordB 30)[7]? =
      some { lat := round6 (coordA.lat * (1 - (7 : ℚ) / 30) + coordB.lat * ((7 : ℚ) / 30))
             lng := round6 (coordA.lng * (1 - (7 : ℚ) / 30) + coordB.lng * ((7 : ℚ) / 30)) } :=
  ⟨(C7_interpolate_spec coordA coordB).1,
   by simpa using (C7_interpolate_spec coordA coordB).2.1 7 (by norm_num)⟩

/-- C5: the code contradicts the claimed (and clearly intended) contract.
The claim says every `request_ride` input succeeds, creating one ride in
status `requested`, with a bad vehicle type surfacing only later; but the
handler builds `schemas.Ride`, whose pydantic v2 validation rejects the
`main.py` `Location` instances passed for `pickup`/`drop` (and rejects a
vehicle type outside `auto`/`taxi` via the `Literal` constraint), so the
construction raises `ValidationError` for every request — the concrete
inputs `reqAuto` (a well-formed auto request the claim declares
successful) and `reqBogus` included — and no ride record is ever created. -/
theorem C5_request_ride_validation_error :
    request_ride emptyStore "r9" reqAuto = .error "Ride validation failed" ∧
    request_ride emptyStore "r9" reqBogus = .error "Ride validation failed" ∧
    (∀ (s : Store) (i : String) (req : RideRequest),
      request_ride s i req = .error "Ride validation failed") :=
  ⟨rfl, rfl, fun _ _ _ => rfl⟩

/-- C10: when a ride's route cursor already sits at the last route point,
`progress_ride` succeeds rather than erroring, whatever the current status
is (a ride already `completed` included): it writes status `completed`
again, and when a driver id is attached it sets that driver's `available`
flag to true again (a missing driver record is silently skipped, rendered
by the `Option.map`); a repeated call repeats the same completion effects. -/
theorem C10_progress_at_last_index (s : Store) (rid : String) (r : Ride)
    (pts : List Coordinate)
    (hr : findOne s.rides rid = some r) (hpts : r.route_points = some pts)
    (hne : pts ≠ []) (hend : r.route_index = (pts.length : Int) - 1) :
    ∃ s', progress_ride s rid = .ok (s', "completed") ∧
      findOne s'.rides rid = some { r with status := "completed" } ∧
      (∀ did, r.driver_id = some did →
        findOne s'.drivers did =
          (findOne s.drivers did).map fun d => { d with available := true }) ∧
      ∃ s'', progress_ride s' rid = .ok (s'', "completed") ∧
        findOne s''.rides rid = some { r with status := "completed" } := by
  have hge : ¬ r.route_index < (pts.length : Int) - 1 := by rw [hend]; exact lt_irrefl _
  obtain ⟨s', hok, hrides, hdrv, _, _, _⟩ := progress_ride_complete hr hpts hne hge
  have hr' : findOne s'.rides rid = some { r with status := "completed" } := by
    rw [hrides, findOne_updateById_self, hr]
    rfl
  refine ⟨s', hok, hr', ?_, ?_⟩
  · intro did hdid
    rw [hdrv did hdid, findOne_updateById_self]
  · have hpts' : ({ r with status := "completed" } : Ride).route_points = some pts := hpts
    obtain ⟨s'', hok2, hrides2, _, _, _, _⟩ := progress_ride_complete hr' hpts' hne hge
    refine ⟨s'', hok2, ?_⟩
    rw [hrides2, findOne_updateById_self, hr']
    rfl

theorem C10_witness :
    ∃ s', progress_ride storeAtEnd "r1" = .ok (s', "completed") ∧
      findOne s'.rides "r1" =
        some { rideBase with
          status := "completed", driver_id := some "d1"
          route_points := some [coordA, coordB], route_index := 1 } ∧
      findOne s'.drivers "d1" = some { driverRavi with available := true } ∧
      ∃ s'', progress_ride s' "r1" = .ok (s'', "completed") := by
  obtain ⟨s', h1, h2, h3, s'', h4, h5⟩ :=
    C10_progress_at_last_index storeAtEnd "r1" _ [coordA, coordB] rfl rfl (by decide) (by decide)
  refine ⟨s', h1, h2, ?_, s'', h4⟩
  rw [h3 "d1" rfl]
  rfl

theorem match_driver_selects_available {t : Store} {rid2 : String} {t' : Store} {st : String}
    (hok : match_driver t rid2 = .ok (t', st)) {r2 : Ride}
    (hr2 : findOne t'.rides rid2 = some r2) {did2 : String}
    (hdid2 : r2.driver_id = some did2) :
    ∃ d2, (did2, d2) ∈ t.drivers ∧ d2.available = true := by
  cases hrt : findOne t.rides rid2 with
  | none => simp [match_driver, hrt] at hok
  | some rt =>
    cases hft : findDriver t.drivers rt.vehicle_type with
    | none => simp [match_driver, hrt, hft] at hok
    | some q =>
      obtain ⟨hqmem, hqvt, hqav⟩ := findDriver_sound hft
      have hex2 : ∃ p ∈ t.drivers, p.2.vehicle_type = rt.vehicle_type ∧ p.2.available = true :=
        ⟨q, hqmem, hqvt, hqav⟩
      obtain ⟨did, d, s'', hok'', hmem, hvt, hav, hfd'', hrides'', _, _, _⟩ :=
        match_driver_success hrt hex2
      rw [hok''] at hok
      injection hok with hok
      cases hok
      rw [hrides'', findOne_updateById_self, hrt] at hr2
      injection hr2 with hr2
      rw [← hr2] at hdid2
      have hdd : some did = some did2 := hdid2
      injection hdd with hdd
      rw [← hdd]
      exact ⟨d, hmem, hav⟩

/-- C1: on a ride with at least one available driver of its vehicle type,
`match_driver` succeeds: it selects a driver that was available with the
matching type, flips exactly that driver's `available` flag to false
(every other driver id reads back unchanged), rewrites the ride to status
`driver_en_route` with the denormalized id/name/phone/vehicle-number
snapshot of that driver, and returns the new status.  The final conjunct
covers the follow-up: any `match_driver` call, on any store and hence on
any later ride of the same type, only ever records a driver that was
`available = true` in that store, so a driver whose flag is still false is
never selected. -/
theorem C1_match_driver_spec (s : Store) (rid : String) (r : Ride)
    (hnd : (s.drivers.map Prod.fst).Nodup)
    (hr : findOne s.rides rid = some r)
    (hex : ∃ p ∈ s.drivers, p.2.vehicle_type = r.vehicle_type ∧ p.2.available = true) :
    ∃ did d s',
      match_driver s rid = .ok (s', "driver_en_route") ∧
      d.vehicle_type = r.vehicle_type ∧ d.available = true ∧
      findOne s.drivers did = some d ∧
      findOne s'.drivers did = some { d with available := false } ∧
      (∀ j, j ≠ did → findOne s'.drivers j = findOne s.drivers j) ∧
      findOne s'.rides rid = some { r with
        status := "driver_en_route", driver_id := some did
        driver_name := some d.name, driver_phone := some d.phone
        driver_vehicle_number := some d.vehicle_number } ∧
      (∀ (t : Store) (rid2 : String) (t' : Store) (st : String),
        match_driver t rid2 = .ok (t', st) →
        ∀ r2, findOne t'.rides rid2 = some r2 → ∀ did2, r2.driver_id = some did2 →
          ∃ d2, (did2, d2) ∈ t.drivers ∧ d2.available = true) := by
  obtain ⟨did, d, s', hok, hmem, hvt, hav, _, hrides, hdrvs, _, _⟩ := match_driver_success hr hex
  have hfind : findOne s.drivers did = some d := findOne_eq_of_mem_nodup hnd hmem
  refine ⟨did, d, s', hok, hvt, hav, hfind, ?_, ?_, ?_, ?_⟩
  · rw [hdrvs, findOne_updateById_self, hfind]
    rfl
  · intro j hj
    rw [hdrvs, findOne_updateById_ne _ _ _ _ hj]
  · rw [hrides, findOne_updateById_self, hr]
    rfl
  · intro t rid2 t' st hok2 r2 hr2 did2 hdid2
    exact match_driver_selects_available hok2 hr2 hdid2

theorem C1_witness :
    ∃ did d s',
      match_driver storeMatch "r1" = .ok (s', "driver_en_route") ∧
      d.vehicle_type = rideBase.vehicle_type ∧ d.available = true ∧
      findOne storeMatch.drivers did = some d ∧
      findOne s'.drivers did = some { d with available := false } ∧
      (∀ j, j ≠ did → findOne s'.drivers j = findOne storeMatch.drivers j) ∧
      findOne s'.rides "r1" = some { rideBase with
        status := "driver_en_route", driver_id := some did
        driver_name := some d.name, driver_phone := some d.phone
        driver_vehicle_number := some d.vehicle_number } ∧
      (∀ (t : Store) (rid2 : String) (t' : Store) (st : String),
        match_driver t rid2 = .ok (t', st) →
        ∀ r2, findOne t'.rides rid2 = some r2 → ∀ did2, r2.driver_id = some did2 →
          ∃ d2, (did2, d2) ∈ t.drivers ∧ d2.available = true) :=
  C1_match_driver_spec storeMatch "r1" rideBase (by decide) rfl (by decide)

/-- C4 counterexample: in `storeDone` the ride `r1` is `completed`, yet
`match_driver` succeeds on it and rewrites its status to
`driver_en_route`, so a terminal ride is mutated by a later operation. -/
theorem C4_counterexample :
    (∃ r, findOne storeDone.rides "r1" = some r ∧ r.status = "completed") ∧
    ∃ p, match_driver storeDone "r1" = .ok p ∧
      ∃ r', findOne p.1.rides "r1" = some r' ∧ r'.status = "driver_en_route" := by
  exact ⟨⟨_, rfl, rfl⟩, ⟨_, rfl, _, rfl, rfl⟩⟩

/-- C4 amended: `completed` and `cancelled` are not enforced as terminal.
None of the operations inspects the ride's status: `match_driver` on a
terminal ride with an available matching driver succeeds and mutates the
ride record back to `driver_en_route`, and `simulate_route` on a terminal
ride rewrites its route fields.  (`progress_ride` likewise proceeds on a
terminal ride; that is the subject of C10.) -/
theorem C4_terminal_not_enforced (s : Store) (rid : String) (r : Ride)
    (hr : findOne s.rides rid = some r)
    (hterm : r.status = "completed" ∨ r.status = "cancelled")
    (hex : ∃ p ∈ s.drivers, p.2.vehicle_type = r.vehicle_type ∧ p.2.available = true) :
    (∃ s' r', match_driver s rid = .ok (s', "driver_en_route") ∧
      findOne s'.rides rid = some r' ∧ r'.status = "driver_en_route" ∧ r' ≠ r) ∧
    (∃ s2 pts, simulate_route s rid = .ok (s2, pts) ∧
      findOne s2.rides rid = some { r with route_points := some pts, route_index := 0 }) := by
  constructor
  · obtain ⟨did, d, s', hok, _, _, _, _, hrides, _, _, _⟩ := match_driver_success hr hex
    refine ⟨s', { r with
        status := "driver_en_route", driver_id := some did
        driver_name := some d.name, driver_phone := some d.phone
        driver_vehicle_number := some d.vehicle_number }, hok, ?_, rfl, ?_⟩
    · rw [hrides, findOne_updateById_self, hr]
      rfl
    · intro heq
      have hst : "driver_en_route" = r.status := congrArg Ride.status heq
      rcases hterm with h | h <;> rw [h] at hst <;> exact absurd hst (by decide)
  · obtain ⟨s2, hok2, hrides2, _, _, _⟩ := simulate_route_success hr
    refine ⟨s2, _, hok2, ?_⟩
    rw [hrides2, findOne_updateById_self, hr]
    rfl

theorem C4_witness :
    (∃ s' r', match_driver storeDone "r1" = .ok (s', "driver_en_route") ∧
      findOne s'.rides "r1" = some r' ∧ r'.status = "driver_en_route" ∧
      r' ≠ { rideBase with status := "completed" }) ∧
    (∃ s2 pts, simulate_route storeDone "r1" = .ok (s2, pts) ∧
      findOne s2.rides "r1" =
        some { rideBase with
          status := "completed", route_points := some pts, route_index := 0 }) := by
  have h := C4_terminal_not_enforced storeDone "r1" { rideBase with status := "completed" }
    rfl (Or.inl rfl) (by decide)
  exact h

theorem issueSeq_spec (bid : String) :
    ∀ (n : Nat) (s : Store) (b : Booth), findOne s.booths bid = some b →
    ∃ s' b', issueSeq bid n s =
        .ok (s', (List.range n).map fun k : Nat => b.queue_count + (k : Int) + 1) ∧
      findOne s'.booths bid = some b' ∧
      b'.queue_count = b.queue_count + n ∧
      s'.tickets = s.tickets ++ ((List.range n).map fun k : Nat =>
        { booth_id := bid, number := b.queue_count + (k : Int) + 1, phone := none }) ∧
      s'.rides = s.rides ∧ s'.drivers = s.drivers := by
  intro n
  induction n with
  | zero =>
    intro s b hb
    exact ⟨s, b, by simp [issueSeq], hb, by simp, by simp, rfl, rfl⟩
  | succ m ih =>
    intro s b hb
    obtain ⟨s1, hok1, hbooths1, htk1, hrides1, hdrv1⟩ := get_queue_number_success none hb
    have hb1 : findOne s1.booths bid = some { b with queue_count := b.queue_count + 1 } := by
      rw [hbooths1, findOne_updateById_self, hb]
      rfl
    obtain ⟨s', b', hokm, hb', hcnt, htk, hr, hd⟩ := ih s1 _ hb1
    have hokm2 : issueSeq bid m s1 =
        .ok (s', (List.range m).map fun k : Nat => b.queue_count + 1 + (k : Int) + 1) := hokm
    have hcnt2 : b'.queue_count = b.queue_count + 1 + (m : Int) := hcnt
    have htk2 : s'.tickets = s1.tickets ++ ((List.range m).map fun k : Nat =>
        { booth_id := bid, number := b.queue_count + 1 + (k : Int) + 1, phone := none }) := htk
    have hlist : ((List.range (m + 1)).map fun k : Nat => b.queue_count + (k : Int) + 1) =
        (b.queue_count + 1) ::
          ((List.range m).map fun k : Nat => b.queue_count + 1 + (k : Int) + 1) := by
      rw [List.range_succ_eq_map, List.map_cons, List.map_map]
      have hfun : ((fun k : Nat => b.queue_count + (k : Int) + 1) ∘ Nat.succ) =
          fun k : Nat => b.queue_count + 1 + (k : Int) + 1 := by
        funext k
        simp only [Function.comp_apply]
        push_cast
        ring
      rw [hfun]
      norm_num
    refine ⟨s', b', ?_, hb', ?_, ?_, ?_, ?_⟩
    · rw [issueSeq, hok1]
      simp only [hokm2, hlist]
    · rw [hcnt2]
      push_cast
      ring
    · rw [htk2, htk1, List.append_assoc]
      congr 1
      rw [List.range_succ_eq_map, List.map_cons, List.map_map]
      have hfun2 : ((fun k : Nat =>
            ({ booth_id := bid, number := b.queue_count + (k : Int) + 1,
               phone := none } : QueueTicket)) ∘ Nat.succ) =
          fun k : Nat =>
            ({ booth_id := bid, number := b.queue_count + 1 + (k : Int) + 1,
               phone := none } : QueueTicket) := by
        funext k
        simp only [Function.comp_apply]
        push_cast
        ring_nf
      rw [hfun2]
      norm_num
    · rw [hr, hrides1]
    · rw [hd, hdrv1]

/-- C8: on an existing booth with counter zero, `n` sequential
`get_queue_number` calls return the ticket numbers 1..n in order, append
one immutable `QueueTicket` record per call carrying that number, and
leave the booth's stored `queue_count` equal to `n`; on a booth id with no
booth record, `get_queue_number` fails with the booth-not-found error. -/
theorem C8_issue_ticket_spec (s : Store) (bid : String) (b : Booth) (n : Nat)
    (hb : findOne s.booths bid = some b) (h0 : b.queue_count = 0) :
    (∃ s' b', issueSeq bid n s = .ok (s', (List.range n).map fun k : Nat => (k : Int) + 1) ∧
      findOne s'.booths bid = some b' ∧ b'.queue_count = n ∧
      s'.tickets = s.tickets ++ ((List.range n).map fun k : Nat =>
        { booth_id := bid, number := (k : Int) + 1, phone := none })) ∧
    (∀ (t : Store) (bid2 : String) (ph : Option String),
      findOne t.booths bid2 = none →
      get_queue_number t bid2 ph = .error "Booth not found") := by
  constructor
  · obtain ⟨s', b', hok, hb', hcnt, htk, _, _⟩ := issueSeq_spec bid n s b hb
    rw [h0] at hok hcnt htk
    refine ⟨s', b', ?_, hb', ?_, ?_⟩
    · simpa using hok
    · rw [hcnt]
      ring
    · simpa using htk
  · intro t bid2 ph hnone
    simp [get_queue_number, hnone]

theorem C8_witness :
    (∃ s' b', issueSeq "b1" 3 storeBooth =
        .ok (s', (List.range 3).map fun k : Nat => (k : Int) + 1) ∧
      findOne s'.booths "b1" = some b' ∧ b'.queue_count = (3 : Nat) ∧
      s'.tickets = storeBooth.tickets ++ ((List.range 3).map fun k : Nat =>
        { booth_id := "b1", number := (k : Int) + 1, phone := none })) ∧
    get_queue_number emptyStore "bX" none = .error "Booth not found" :=
  ⟨(C8_issue_ticket_spec storeBooth "b1" boothMG 3 rfl rfl).1,
   (C8_issue_ticket_spec storeBooth "b1" boothMG 3 rfl rfl).2 emptyStore "bX" none rfl⟩

/-- C9: both route operations preserve the store-wide invariant that every
visible ride with route points has its cursor inside `[0, length - 1]`:
`simulate_route` establishes it on the touched ride by writing 31 points
with cursor 0, and a successful `progress_ride` either steps the cursor by
one (exactly when it was strictly below the last index) or leaves it
unchanged (at or past the last index). -/
theorem C9_route_index_invariant (s : Store) (hs : StoreInv s) :
    (∀ rid s' pts, simulate_route s rid = .ok (s', pts) →
        StoreInv s' ∧ ∃ r', findOne s'.rides rid = some r' ∧
          r'.route_index = 0 ∧ r'.route_points = some pts ∧ pts.length = 31) ∧
    (∀ rid s' st, progress_ride s rid = .ok (s', st) →
        StoreInv s' ∧
        ∀ r pts, findOne s.rides rid = some r → r.route_points = some pts →
          ∃ r', findOne s'.rides rid = some r' ∧
            ((r.route_index < (pts.length : Int) - 1 ∧
                r'.route_index = r.route_index + 1) ∨
             (¬ r.route_index < (pts.length : Int) - 1 ∧
                r'.route_index = r.route_index))) := by
  constructor
  · intro rid s' pts hok
    cases hrt : findOne s.rides rid with
    | none => rw [simulate_route, hrt] at hok; cases hok
    | some r =>
      obtain ⟨s1, hok1, hrides1, _, _, _⟩ := simulate_route_success hrt
      rw [hok1] at hok
      injection hok with hok
      injection hok with hok hpts
      cases hok
      cases hpts
      have hr' : findOne s'.rides rid =
          some { r with
            route_points := some (interpolate r.pickup.coordinate r.drop.coordinate 30)
            route_index := 0 } := by
        rw [hrides1, findOne_updateById_self, hrt]
        rfl
      refine ⟨?_, { r with
          route_points := some (interpolate r.pickup.coordinate r.drop.coordinate 30)
          route_index := 0 }, hr', rfl, rfl, interpolate_length _ _ 30⟩
      intro i ri hfi
      by_cases hi : i = rid
      · rw [hi, hr'] at hfi
        injection hfi with hfi
        rw [← hfi]
        intro pts' hp'
        injection hp' with hp'
        rw [← hp']
        constructor
        · exact le_refl 0
        · rw [interpolate_length]
          norm_num
      · rw [hrides1, findOne_updateById_ne _ _ _ _ hi] at hfi
        exact hs i ri hfi
  · intro rid s' st hok
    cases hrt : findOne s.rides rid with
    | none => rw [progress_ride, hrt] at hok; cases hok
    | some r =>
      cases hpts : r.route_points with
      | none => simp [progress_ride, hrt, hpts] at hok
      | some pts =>
        by_cases hne : pts = []
        · rw [hne] at hpts
          simp [progress_ride, hrt, hpts] at hok
        · have hinv := hs rid r hrt pts hpts
          by_cases hlt : r.route_index < (pts.length : Int) - 1
          · obtain ⟨s1, hok1, hrides1, _, _, _⟩ := progress_ride_step hrt hpts hne hlt
            rw [hok1] at hok
            injection hok with hok
            injection hok with hok hst
            cases hok
            have hr' : findOne s'.rides rid =
                some { r with
                  route_index := r.route_index + 1
                  status := if r.route_index + 1 > 1 then "ongoing" else r.status } := by
              rw [hrides1, findOne_updateById_self, hrt]
              rfl
            constructor
            · intro i ri hfi
              by_cases hi : i = rid
              · rw [hi, hr'] at hfi
                injection hfi with hfi
                rw [← hfi]
                intro pts' hp'
                have hp2 : r.route_points = some pts' := hp'
                have hp3 := hp2.symm.trans hpts
                injection hp3 with hp3
                constructor
                · show (0 : Int) ≤ r.route_index + 1
                  have h1 := hinv.1
                  omega
                · show r.route_index + 1 ≤ (pts'.length : Int) - 1
                  rw [hp3]
                  omega
              · rw [hrides1, findOne_updateById_ne _ _ _ _ hi] at hfi
                exact hs i ri hfi
            · intro r0 pts0 hr0 hp0
              injection hr0 with hrr
              subst hrr
              have hpp := hp0.symm.trans hpts
              injection hpp with hpp
              subst hpp
              exact ⟨_, hr', Or.inl ⟨hlt, rfl⟩⟩
          · obtain ⟨s1, hok1, hrides1, _, _, _, _⟩ := progress_ride_complete hrt hpts hne hlt
            rw [hok1] at hok
            injection hok with hok
            injection hok with hok hst
            cases hok
            have hr' : findOne s'.rides rid = some { r with status := "completed" } := by
              rw [hrides1, findOne_updateById_self, hrt]
              rfl
            constructor
            · intro i ri hfi
              by_cases hi : i = rid
              · rw [hi, hr'] at hfi
                injection hfi with hfi
                rw [← hfi]
                intro pts' hp'
                have hp2 : r.route_points = some pts' := hp'
                exact hs rid r hrt pts' hp2
              · rw [hrides1, findOne_updateById_ne _ _ _ _ hi] at hfi
                exact hs i ri hfi
            · intro r0 pts0 hr0 hp0
              injection hr0 with hrr
              subst hrr
              have hpp := hp0.symm.trans hpts
              injection hpp with hpp
              subst hpp
              exact ⟨_, hr', Or.inr ⟨hlt, rfl⟩⟩

theorem C9_witness :
    ∃ s' pts, simulate_route storeMatch "r1" = .ok (s', pts) ∧ StoreInv s' ∧
      ∃ r', findOne s'.rides "r1" = some r' ∧ r'.route_index = 0 ∧
        r'.route_points = some pts ∧ pts.length = 31 := by
  have hs : StoreInv storeMatch := by
    intro i r h
    rw [show storeMatch.rides = [("r1", rideBase)] from rfl, findOne_cons] at h
    by_cases hi : ("r1" : String) = i
    · rw [if_pos hi] at h
      injection h with h
      intro pts hp
      rw [← h] at hp
      exact Option.noConfusion hp
    · rw [if_neg hi] at h
      cases h
  obtain ⟨s1, hok, _, _, _, _⟩ := @simulate_route_success storeMatch "r1" rideBase rfl
  obtain ⟨hinv, r', hr', hidx, hrp, hlen⟩ :=
    (C9_route_index_invariant storeMatch hs).1 "r1" s1 _ hok
  exact ⟨s1, _, hok, hinv, r', hr', hidx, hrp, hlen⟩

/-- C2: on a ride with an attached driver record, one `simulate_route`
stores 31 points with cursor 0, after which `progress_ride` drives
`route_index` one step per call (after `k` calls the cursor reads `k`, for
every `k ≤ 30`), and the 31st call returns `completed`, writes status
`completed` on the ride, and flips the attached driver's `available` flag
back to true. -/
theorem C2_full_ride_progression (s0 : Store) (rid did : String) (r0 : Ride) (d0 : Driver)
    (hr : findOne s0.rides rid = some r0)
    (hdid : r0.driver_id = some did)
    (hd : findOne s0.drivers did = some d0) :
    ∃ s1 pts,
      simulate_route s0 rid = .ok (s1, pts) ∧ pts.length = 31 ∧
      (∀ k : Nat, k ≤ 30 → ∃ sk rk, progressN rid k s1 = .ok sk ∧
          findOne sk.rides rid = some rk ∧ rk.route_index = (k : Int) ∧
          rk.route_points = some pts ∧ sk.drivers = s0.drivers) ∧
      (∃ s30 s31 r31, progressN rid 30 s1 = .ok s30 ∧
          progress_ride s30 rid = .ok (s31, "completed") ∧
          findOne s31.rides rid = some r31 ∧ r31.status = "completed" ∧
          findOne s31.drivers did = some { d0 with available := true }) := by
  obtain ⟨s1, hok1, hrides1, hdrv1, _, _⟩ := simulate_route_success hr
  refine ⟨s1, interpolate r0.pickup.coordinate r0.drop.coordinate 30, hok1,
    interpolate_length _ _ 30, ?_, ?_⟩
  all_goals
    have hlen : (interpolate r0.pickup.coordinate r0.drop.coordinate 30).length = 31 :=
      interpolate_length _ _ 30
    have hne : interpolate r0.pickup.coordinate r0.drop.coordinate 30 ≠ [] := by
      intro h
      rw [h] at hlen
      exact absurd hlen (by decide)
    have hr1 : findOne s1.rides rid = some { r0 with
        route_points := some (interpolate r0.pickup.coordinate r0.drop.coordinate 30)
        route_index := 0 } := by
      rw [hrides1, findOne_updateById_self, hr]
      rfl
    have key : ∀ k : Nat, k ≤ 30 → ∃ sk rk, progressN rid k s1 = .ok sk ∧
        findOne sk.rides rid = some rk ∧ rk.route_index = (k : Int) ∧
        rk.route_points = some (interpolate r0.pickup.coordinate r0.drop.coordinate 30) ∧
        rk.driver_id = some did ∧ sk.drivers = s0.drivers := by
      intro k
      induction k with
      | zero =>
        intro _
        refine ⟨s1, _, rfl, hr1, rfl, rfl, ?_, hdrv1⟩
        exact hdid
      | succ m ihm =>
        intro hk
        obtain ⟨sm, rm, hokm, hfm, hidxm, hptsm, hdidm, hdm⟩ := ihm (by omega)
        have hlt : rm.route_index <
            ((interpolate r0.pickup.coordinate r0.drop.coordinate 30).length : Int) - 1 := by
          rw [hidxm, hlen]
          push_cast
          omega
        obtain ⟨sm1, hoksm, hridessm, hdrvsm, _, _⟩ := progress_ride_step hfm hptsm hne hlt
        refine ⟨sm1, { rm with
            route_index := rm.route_index + 1
            status := if rm.route_index + 1 > 1 then "ongoing" else rm.status },
          ?_, ?_, ?_, hptsm, hdidm, ?_⟩
        · simp only [progressN, hokm, hoksm, Except.map]
        · rw [hridessm, findOne_updateById_self, hfm]
          rfl
        · show rm.route_index + 1 = ((m + 1 : Nat) : Int)
          rw [hidxm]
          push_cast
          ring
        · rw [hdrvsm, hdm]
  · intro k hk
    obtain ⟨sk, rk, h1, h2, h3, h4, _, h6⟩ := key k hk
    exact ⟨sk, rk, h1, h2, h3, h4, h6⟩
  · obtain ⟨s30, r30, hok30, hf30, hidx30, hpts30, hdid30, hdm30⟩ := key 30 (le_refl 30)
    have hge : ¬ r30.route_index <
        ((interpolate r0.pickup.coordinate r0.drop.coordinate 30).length : Int) - 1 := by
      rw [hidx30, hlen]
      norm_num
    obtain ⟨s31, hokc, hrides31, hdrv31, _, _, _⟩ :=
      progress_ride_complete hf30 hpts30 hne hge
    have hf31 : findOne s31.rides rid = some { r30 with status := "completed" } := by
      rw [hrides31, findOne_updateById_self, hf30]
      rfl
    refine ⟨s30, s31, { r30 with status := "completed" }, hok30, hokc, hf31, rfl, ?_⟩
    rw [hdrv31 did hdid30, hdm30, findOne_updateById_self, hd]
    rfl

theorem C2_witness :
    ∃ s1 pts,
      simulate_route storeTrip "r2" = .ok (s1, pts) ∧ pts.length = 31 ∧
      (∀ k : Nat, k ≤ 30 → ∃ sk rk, progressN "r2" k s1 = .ok sk ∧
          findOne sk.rides "r2" = some rk ∧ rk.route_index = (k : Int) ∧
          rk.route_points = some pts ∧ sk.drivers = storeTrip.drivers) ∧
      (∃ s30 s31 r31, progressN "r2" 30 s1 = .ok s30 ∧
          progress_ride s30 "r2" = .ok (s31, "completed") ∧
          findOne s31.rides "r2" = some r31 ∧ r31.status = "completed" ∧
          findOne s31.drivers "d1" =
            some { { driverRavi with available := false } with available := true }) :=
  C2_full_ride_progression storeTrip "r2" "d1" _ _ rfl rfl rfl

end RideHailing
